import Mathlib

/- Verification of the SpotifyStealthScraper workflow
(src/src/main/python/SpotifyStealthScraper.py) through a shallow embedding.
Network interaction, randomness and the wall clock are modelled by an explicit
environment record NetEnv that fixes the outcome of each external call of one
run.  The embedded functions return, besides the Python return value, a trace
of observable events: the deliberate pacing delays, the network calls, the
intermediate progress notification and the blocking playback sleep. -/

namespace StealthScraper

/- The account dictionary, restricted to the three keys the code reads
(email, username, password).  A key that is absent from the JSON object is
modelled as none.  Python truthiness of the dictionary (used by
stream and login as `if self.account`) is modelled by pyTruthyAcct below:
the dictionary is truthy when at least one of the modelled keys is present. -/
structure Account where
  email : Option String := none
  username : Option String := none
  password : Option String := none
  deriving DecidableEq

/- The proxy dictionary, restricted to the four keys _format_proxy_url reads.
A missing key is none; reading a missing key with brackets raises KeyError. -/
structure Proxy where
  host : Option String := none
  port : Option Nat := none
  username : Option String := none
  password : Option String := none
  deriving DecidableEq

/- A UTC instant as produced by datetime.utcnow(). -/
structure UTCTime where
  year : Nat
  month : Nat
  day : Nat
  hour : Nat
  minute : Nat
  second : Nat
  microsecond : Nat
  deriving DecidableEq

/- Calendar validity of a UTC instant (the contract of datetime.utcnow()). -/
def UTCTime.valid (t : UTCTime) : Prop :=
  1 ≤ t.month ∧ t.month ≤ 12 ∧ 1 ≤ t.day ∧ t.day ≤ 31 ∧
  t.hour ≤ 23 ∧ t.minute ≤ 59 ∧ t.second ≤ 59 ∧
  t.microsecond ≤ 999999 ∧ 1 ≤ t.year ∧ t.year ≤ 9999

instance (t : UTCTime) : Decidable t.valid := by
  unfold UTCTime.valid; infer_instance

/- The result dictionary returned by play_track and stream.  The Python
dictionaries carry the keys success and plays on every path; track_id,
duration, timestamp only on the success path; error only on failure paths.
An absent key is none. -/
structure PlayResult where
  success : Bool
  plays : Nat
  track_id : Option String := none
  duration : Option Int := none
  timestamp : Option String := none
  error : Option String := none
  deriving DecidableEq

/- Outcomes of the external world for one run: each field fixes what the
corresponding network call, random sample or clock read returns.
trackBody models track_response.json() together with the name lookup:
Except.error is a raised decoding exception (caught by play_track),
Except.ok carries the optional name field of the decoded object. -/
structure NetEnv where
  csrfGetExc : Bool
  sp_csrf : Option String
  loginPostExc : Bool
  loginStatus : Nat
  sp_dc : Option String
  trackGetExc : Option String
  trackStatus : Nat
  trackBody : Except String (Option String)
  durSample : ℚ
  now : UTCTime

/- Observable events of a run, in program order.  humanDelay records a call
to _human_delay with its millisecond bounds; loginCsrfGet and loginPost are
the two login network calls (loginPost carries the csrf token it submits);
metadataGet is the track metadata lookup; progress is the intermediate
status-playing JSON line; sleep is the blocking playback delay in seconds. -/
inductive Event where
  | humanDelay (minMs maxMs : Nat)
  | loginCsrfGet
  | loginPost (csrf : String)
  | metadataGet (trackId : String) (bearer : String)
  | progress (trackName trackId : String) (duration : Int)
  | sleep (seconds : ℚ)
  deriving DecidableEq

/- Python truthiness of an optional string: None and the empty string are
falsy, any other string is truthy. -/
def pyTruthyStr : Option String → Bool
  | none => false
  | some s => !s.isEmpty

/- Python truthiness of the optional account dictionary (restricted to the
keys the code reads): None is falsy, a dictionary is truthy when nonempty. -/
def pyTruthyAcct : Option Account → Bool
  | none => false
  | some a => a.email.isSome || a.username.isSome || a.password.isSome

/- Python truthiness of the proxy dictionary (restricted to modelled keys). -/
def proxyTruthy (p : Proxy) : Bool :=
  p.host.isSome || p.port.isSome || p.username.isSome || p.password.isSome

/- Python int() applied to a real sample: truncation toward zero. -/
def pyInt (q : ℚ) : Int := if 0 ≤ q then Rat.floor q else -(Rat.floor (-q))

instance {ε α : Type} [DecidableEq ε] [DecidableEq α] : DecidableEq (Except ε α) :=
  fun x y =>
    match x, y with
    | Except.ok a, Except.ok b =>
        match decEq a b with
        | isTrue h => isTrue (by rw [h])
        | isFalse h => isFalse (by intro hh; cases hh; exact h rfl)
    | Except.error a, Except.error b =>
        match decEq a b with
        | isTrue h => isTrue (by rw [h])
        | isFalse h => isFalse (by intro hh; cases hh; exact h rfl)
    | Except.ok _, Except.error _ => isFalse (by intro hh; cases hh)
    | Except.error _, Except.ok _ => isFalse (by intro hh; cases hh)

/- Zero-padded decimal fields of datetime.isoformat(). -/
def pad2 (n : Nat) : String := if n < 10 then "0" ++ toString n else toString n

def pad4 (n : Nat) : String :=
  if n < 10 then "000" ++ toString n
  else if n < 100 then "00" ++ toString n
  else if n < 1000 then "0" ++ toString n
  else toString n

def pad6 (n : Nat) : String :=
  if n < 10 then "00000" ++ toString n
  else if n < 100 then "0000" ++ toString n
  else if n < 1000 then "000" ++ toString n
  else if n < 10000 then "00" ++ toString n
  else if n < 100000 then "0" ++ toString n
  else toString n

/- datetime.isoformat(): the fractional part is omitted when the microsecond
field is zero, exactly as in Python. -/
def isoformat (t : UTCTime) : String :=
  pad4 t.year ++ "-" ++ pad2 t.month ++ "-" ++ pad2 t.day ++ "T" ++
  pad2 t.hour ++ ":" ++ pad2 t.minute ++ ":" ++ pad2 t.second ++
  (if t.microsecond = 0 then "" else "." ++ pad6 t.microsecond)

/- SpotifyStealthScraper._format_proxy_url.  The guard is Python truthiness
of proxy.get, so a present but empty username or password selects the plain
host:port form.  Reading a missing host or port with brackets raises
KeyError, modelled as Except.error; the f-string evaluates host before
port, so a missing host is reported first. -/
def format_proxy_url (p : Proxy) : Except String String :=
  if pyTruthyStr p.username && pyTruthyStr p.password then
    match p.host, p.port with
    | some h, some pt =>
        Except.ok ("http://" ++ p.username.getD "" ++ ":" ++ p.password.getD "" ++
          "@" ++ h ++ ":" ++ toString pt)
    | none, _ => Except.error ("KeyError: host")
    | some _, none => Except.error ("KeyError: port")
  else
    match p.host, p.port with
    | some h, some pt => Except.ok ("http://" ++ h ++ ":" ++ toString pt)
    | none, _ => Except.error ("KeyError: host")
    | some _, none => Except.error ("KeyError: port")

/- The fixed client-identity headers installed by _setup_stealth. -/
def stealthHeaders : List (String × String) :=
  [("User-Agent", "Mozilla/5.0 (iPhone; CPU iPhone OS 17_0 like Mac OS X) AppleWebKit/605.1.15 (KHTML, like Gecko) Mobile/15E148 Spotify/8.8.0"),
   ("Accept", "application/json, text/plain, */*"),
   ("Accept-Language", "en-US,en;q=0.9"),
   ("Accept-Encoding", "gzip, deflate, br"),
   ("X-Requested-With", "XMLHttpRequest"),
   ("Origin", "https://open.spotify.com"),
   ("Referer", "https://open.spotify.com/"),
   ("Sec-Ch-Ua-Mobile", "?1"),
   ("Sec-Ch-Ua-Platform", "\"iOS\""),
   ("Sec-Fetch-Dest", "empty"),
   ("Sec-Fetch-Mode", "cors"),
   ("Sec-Fetch-Site", "same-site")]

/- The outbound channel built at construction: the fixed headers and the
proxy URL installed for both the http and https schemes (none when no proxy
was configured). -/
structure Channel where
  headers : List (String × String)
  proxies : Option String
  deriving DecidableEq

/- SpotifyStealthScraper._setup_stealth, run from the constructor.  When the
proxy dictionary is truthy the proxy URL is formatted immediately; a KeyError
raised by _format_proxy_url propagates out of the constructor (Except.error).
A falsy or absent proxy leaves the channel without a proxy route. -/
def setup_stealth (proxy : Option Proxy) : Except String Channel :=
  match proxy with
  | none => Except.ok { headers := stealthHeaders, proxies := none }
  | some p =>
      if proxyTruthy p then
        match format_proxy_url p with
        | Except.ok url => Except.ok { headers := stealthHeaders, proxies := some url }
        | Except.error m => Except.error m
      else
        Except.ok { headers := stealthHeaders, proxies := none }

/- SpotifyStealthScraper.login.  Returns the boolean result, the value of
self.access_token after the call, and the trace of events.  A falsy account
prints an error object and returns False without any network call.  A
transport exception during either call is caught by the surrounding guard
and yields False with the token unchanged.  On HTTP 200 the token is set
from the sp_dc cookie, with the empty string as default when the cookie is
absent.  The csrf token posted is the sp_csrf_token cookie with empty-string
default; the submitted identifier and secret have no observable effect in
this model and are not recorded. -/
def login (account : Option Account) (access_token : Option String) (env : NetEnv) :
    Bool × Option String × List Event :=
  if !pyTruthyAcct account then
    (false, access_token, [])
  else if env.csrfGetExc then
    (false, access_token, [Event.humanDelay 200 400, Event.loginCsrfGet])
  else if env.loginPostExc then
    (false, access_token,
      [Event.humanDelay 200 400, Event.loginCsrfGet,
       Event.humanDelay 500 1500, Event.loginPost (env.sp_csrf.getD "")])
  else if env.loginStatus = 200 then
    (true, some (env.sp_dc.getD ""),
      [Event.humanDelay 200 400, Event.loginCsrfGet,
       Event.humanDelay 500 1500, Event.loginPost (env.sp_csrf.getD "")])
  else
    (false, access_token,
      [Event.humanDelay 200 400, Event.loginCsrfGet,
       Event.humanDelay 500 1500, Event.loginPost (env.sp_csrf.getD "")])

/- The Authorization header value of the metadata call: a conditional
expression on Python truthiness of the token, so the empty-string token
yields an empty bearer value rather than a suppressed header. -/
def bearerOf (access_token : Option String) : String :=
  if pyTruthyStr access_token then "Bearer " ++ access_token.getD "" else ""

/- SpotifyStealthScraper.play_track.  A transport exception during the
metadata call, or a decoding exception from json(), is caught and converted
to a failure result.  A non-200 status returns the Track-not-found result
immediately: no second delay, no progress line, no sleep.  On the happy
path the sampled duration is truncated with int() once and used both in
the progress line and in the final result, and the timestamp is
utcnow().isoformat(). -/
def play_track (access_token : Option String) (track_id : String) (env : NetEnv) :
    PlayResult × List Event :=
  match env.trackGetExc with
  | some msg =>
      ({ success := false, plays := 0, error := some msg },
       [Event.humanDelay 200 500, Event.metadataGet track_id (bearerOf access_token)])
  | none =>
      if env.trackStatus ≠ 200 then
        ({ success := false, plays := 0, error := some ("Track not found") },
         [Event.humanDelay 200 500, Event.metadataGet track_id (bearerOf access_token)])
      else
        match env.trackBody with
        | Except.error msg =>
            ({ success := false, plays := 0, error := some msg },
             [Event.humanDelay 200 500, Event.metadataGet track_id (bearerOf access_token)])
        | Except.ok nameField =>
            let track_name := nameField.getD ("Unknown")
            let d := pyInt env.durSample
            ({ success := true, plays := 1, track_id := some track_id,
               duration := some d, timestamp := some (isoformat env.now) },
             [Event.humanDelay 200 500, Event.metadataGet track_id (bearerOf access_token),
              Event.humanDelay 300 700, Event.progress track_name track_id d,
              Event.sleep env.durSample])

/- SpotifyStealthScraper.stream.  Login runs exactly when the account is
truthy and the current access token is falsy (None or empty).  On login
failure the workflow terminates with the Login-failed result and play_track
is never reached; on success play_track runs with the token login set. -/
def stream (account : Option Account) (access_token : Option String)
    (track_id : String) (env : NetEnv) : PlayResult × List Event :=
  if pyTruthyAcct account && !pyTruthyStr access_token then
    match login account access_token env with
    | (true, tok, levs) =>
        let pr := play_track tok track_id env
        (pr.1, levs ++ pr.2)
    | (false, _, levs) =>
        ({ success := false, plays := 0, error := some ("Login failed") }, levs)
  else
    play_track access_token track_id env

/- Optional-argument parsing in main: the argument at position i is decoded
unless it is missing or the literal string null; a decoding failure
(json.loads raising JSONDecodeError, modelled as the oracle returning none)
is swallowed and leaves the value absent.  The oracle jparse models
json.loads restricted to object results. -/
def parseOptArg {α : Type} (jparse : String → Option α) (argv : List String)
    (i : Nat) : Option α :=
  match argv.get? i with
  | some s => if s = "null" then none else jparse s
  | none => none

/- The observable outcome of one process run: the early usage error (exit 1),
a completed workflow carrying the final result and the event trace, or an
unhandled exception escaping main (a stack trace on stderr). -/
inductive MainResult where
  | usageError
  | completed (r : PlayResult) (tr : List Event)
  | crashed (msg : String)
  deriving DecidableEq

/- The main entry point.  argv includes the program name at position 0.
With fewer than two elements the usage object is printed and the process
exits 1.  Otherwise the optional proxy and account arguments are parsed,
the scraper is constructed (which formats the proxy URL eagerly and can
raise), and stream runs with a fresh session (access token None). -/
def main (jp : String → Option Proxy) (ja : String → Option Account)
    (argv : List String) (env : NetEnv) : MainResult :=
  match argv with
  | _ :: track_id :: _ =>
      let proxy := parseOptArg jp argv 2
      let account := parseOptArg ja argv 3
      match setup_stealth proxy with
      | Except.error msg => MainResult.crashed msg
      | Except.ok _ =>
          let pr := stream account none track_id env
          MainResult.completed pr.1 pr.2
  | _ => MainResult.usageError

/- Whether the run died with an unhandled exception. -/
def isCrashed : MainResult → Bool
  | MainResult.crashed _ => true
  | _ => false

/- The success flag of the final result; runs without a final result count
as failures. -/
def finalSuccess : MainResult → Bool
  | MainResult.completed r _ => r.success
  | _ => false

/- The process exit status: sys.exit(1) on the usage error, sys.exit(0 or 1)
from the success flag on completion, and the interpreter exit status 1 for
an unhandled exception. -/
def exitCode : MainResult → Nat
  | MainResult.usageError => 1
  | MainResult.completed r _ => if r.success then 0 else 1
  | MainResult.crashed _ => 1

/- Event classifiers used by the ordering and counting claims. -/
def isLoginStart : Event → Bool
  | Event.loginCsrfGet => true
  | _ => false

def isLoginNet : Event → Bool
  | Event.loginCsrfGet => true
  | Event.loginPost _ => true
  | _ => false

def isPlaybackEv : Event → Bool
  | Event.metadataGet _ _ => true
  | Event.progress _ _ _ => true
  | Event.sleep _ => true
  | _ => false

/- Number of login invocations recorded in a trace: each call to login with
a truthy account performs exactly one GET of the login page. -/
def loginStarts (tr : List Event) : Nat := tr.countP isLoginStart

/- Concrete fixtures used by witnesses and counterexamples. -/
def tHappy : UTCTime := ⟨2026, 10, 12, 9, 30, 0, 123456⟩

def envHappy : NetEnv :=
  { csrfGetExc := false, sp_csrf := some ("csrf"), loginPostExc := false,
    loginStatus := 200, sp_dc := some ("tok"), trackGetExc := none,
    trackStatus := 200, trackBody := Except.ok (some ("Song A")),
    durSample := Rat.divInt 135 2, now := tHappy }

def env404 : NetEnv := { envHappy with trackStatus := 404 }

def envLoginFail : NetEnv := { envHappy with loginStatus := 403 }

def envNoCookie : NetEnv := { envHappy with sp_dc := none }

def acctDemo : Option Account :=
  some { email := some ("user@email.com"), password := some ("pass") }

def jpNone : String → Option Proxy := fun _ => none

def jaNone : String → Option Account := fun _ => none

def jpHostOnly : String → Option Proxy := fun _ => some { host := some ("p.com") }

def proxEmptyUser : Proxy :=
  { host := some ("p.com"), port := some 8080,
    username := some (""), password := some ("pw") }

def proxHP : Proxy := { host := some ("p.com"), port := some 8080 }

def proxHPUser : Proxy :=
  { host := some ("p.com"), port := some 8080,
    username := some ("u"), password := some ("pw") }

end StealthScraper

namespace StealthScraper

/- Bridge from the computable truncation to the floor function. -/
theorem pyInt_eq_floor (q : ℚ) (h : 0 ≤ q) : pyInt q = ⌊q⌋ := by
  unfold pyInt
  rw [if_pos h, Rat.floor_def', Rat.floor_def]

/- Truncation keeps a sample of the closed interval 45..120 inside the
integer interval 45..120. -/
theorem pyInt_bounds (q : ℚ) (h45 : 45 ≤ q) (h120 : q ≤ 120) :
    45 ≤ pyInt q ∧ pyInt q ≤ 120 := by
  have h0 : (0:ℚ) ≤ q := le_trans (by norm_num) h45
  rw [pyInt_eq_floor q h0]
  constructor
  · exact Int.le_floor.mpr (by exact_mod_cast h45)
  · have hf : (⌊q⌋ : ℚ) ≤ 120 := le_trans (Int.floor_le q) h120
    exact_mod_cast hf

/- No event of a login trace belongs to the playback phase. -/
theorem login_trace_no_playback (account : Option Account) (tok0 : Option String)
    (env : NetEnv) : ∀ e ∈ (login account tok0 env).2.2, isPlaybackEv e = false := by
  unfold login
  split_ifs <;> intro e he <;>
    simp only [List.mem_cons, List.not_mem_nil, or_false] at he <;>
    rcases he with rfl | rfl | rfl | rfl <;> rfl

/- A login call with a truthy account issues exactly one GET of the login
page. -/
theorem login_trace_starts (account : Option Account) (tok0 : Option String)
    (env : NetEnv) (h : pyTruthyAcct account = true) :
    loginStarts (login account tok0 env).2.2 = 1 := by
  unfold login
  rw [h]
  split_ifs <;> first | rfl | simp_all

/- No event of a playback trace belongs to the login phase. -/
theorem play_trace_no_login (tok : Option String) (tid : String) (env : NetEnv) :
    ∀ e ∈ (play_track tok tid env).2, isLoginNet e = false := by
  unfold play_track
  split <;> intro e he
  · simp only [List.mem_cons, List.not_mem_nil, or_false] at he
    rcases he with rfl | rfl <;> rfl
  · split_ifs at he with hst
    · simp only [List.mem_cons, List.not_mem_nil, or_false] at he
      rcases he with rfl | rfl <;> rfl
    · split at he <;>
        simp only [List.mem_cons, List.not_mem_nil, or_false] at he
      · rcases he with rfl | rfl <;> rfl
      · rcases he with rfl | rfl | rfl | rfl | rfl <;> rfl

/- A playback trace records no login invocation. -/
theorem play_trace_starts (tok : Option String) (tid : String) (env : NetEnv) :
    loginStarts (play_track tok tid env).2 = 0 := by
  unfold play_track
  split
  · rfl
  · split_ifs
    · rfl
    · split <;> rfl

end StealthScraper

namespace StealthScraper

/- stream with a truthy account, falsy token and failing login terminates
with the Login-failed result and only the login trace. -/
theorem stream_login_failed (account : Option Account) (tok0 : Option String)
    (tid : String) (env : NetEnv)
    (hcond : (pyTruthyAcct account && !pyTruthyStr tok0) = true)
    (hfail : (login account tok0 env).1 = false) :
    stream account tok0 tid env =
      ({ success := false, plays := 0, error := some ("Login failed") },
       (login account tok0 env).2.2) := by
  unfold stream
  rw [if_pos hcond]
  rcases hl : login account tok0 env with ⟨b, tok, levs⟩
  rw [hl] at hfail
  simp only at hfail
  subst hfail
  rfl

/- stream with a truthy account, falsy token and successful login plays the
track with the token login resolved, concatenating the two traces. -/
theorem stream_login_ok (account : Option Account) (tok0 : Option String)
    (tid : String) (env : NetEnv)
    (hcond : (pyTruthyAcct account && !pyTruthyStr tok0) = true)
    (hok : (login account tok0 env).1 = true) :
    stream account tok0 tid env =
      ((play_track (login account tok0 env).2.1 tid env).1,
       (login account tok0 env).2.2 ++
         (play_track (login account tok0 env).2.1 tid env).2) := by
  unfold stream
  rw [if_pos hcond]
  rcases hl : login account tok0 env with ⟨b, tok, levs⟩
  rw [hl] at hok
  simp only at hok
  subst hok
  rfl

/- stream without a truthy account (or with a truthy token) skips login. -/
theorem stream_no_login (account : Option Account) (tok0 : Option String)
    (tid : String) (env : NetEnv)
    (hcond : (pyTruthyAcct account && !pyTruthyStr tok0) = false) :
    stream account tok0 tid env = play_track tok0 tid env := by
  unfold stream
  rw [if_neg (by rw [hcond]; simp)]

/-- C1: for every run in which credentials were supplied (truthy account),
no session token is yet set, and the login step reports failure, the
workflow terminates with the result success false, plays 0,
error Login failed, and the playback simulator never runs: the trace of
the run contains no playback event. -/
theorem C1_login_failure_terminates (account : Option Account) (tid : String)
    (env : NetEnv) (hacct : pyTruthyAcct account = true)
    (hfail : (login account none env).1 = false) :
    (stream account none tid env).1 =
      { success := false, plays := 0, error := some ("Login failed") } ∧
    ∀ e ∈ (stream account none tid env).2, isPlaybackEv e = false := by
  have hcond : (pyTruthyAcct account && !pyTruthyStr (none : Option String)) = true := by
    rw [hacct]; rfl
  rw [stream_login_failed account none tid env hcond hfail]
  exact ⟨rfl, login_trace_no_playback account none env⟩

/-- Witness for C1 at a concrete run: credentials present, login submission
answered with status 403. -/
theorem C1_witness :
    (stream acctDemo none ("T1") envLoginFail).1 =
      { success := false, plays := 0, error := some ("Login failed") } ∧
    ∀ e ∈ (stream acctDemo none ("T1") envLoginFail).2, isPlaybackEv e = false :=
  C1_login_failure_terminates acctDemo ("T1") envLoginFail (by decide) (by decide)

/-- C2: at the start of a run the session token is unresolved (None), and
login runs exactly once when the account is truthy and never otherwise:
the trace contains exactly one login invocation if credentials are
supplied and zero if not, with credentials absent the workflow is exactly
the playback simulator, and every login event of the trace precedes every
playback event (the trace splits into a login-only prefix and a
playback-only suffix). -/
theorem C2_login_iff_credentials (account : Option Account) (tid : String)
    (env : NetEnv) :
    loginStarts (stream account none tid env).2 =
      (if pyTruthyAcct account then 1 else 0) ∧
    (pyTruthyAcct account = false →
      stream account none tid env = play_track none tid env) ∧
    ∃ l p, (stream account none tid env).2 = l ++ p ∧
      (∀ e ∈ l, isPlaybackEv e = false) ∧ (∀ e ∈ p, isLoginNet e = false) := by
  by_cases hacct : pyTruthyAcct account = true
  · have hcond : (pyTruthyAcct account && !pyTruthyStr (none : Option String)) = true := by
      rw [hacct]; rfl
    rcases hb : (login account none env).1 with _ | _
    · rw [stream_login_failed account none tid env hcond hb]
      refine ⟨?_, fun h => absurd h (by rw [hacct]; simp), ?_⟩
      · rw [hacct]
        simp only [if_true]
        exact login_trace_starts account none env hacct
      · exact ⟨(login account none env).2.2, [], by simp,
          login_trace_no_playback account none env, by simp⟩
    · rw [stream_login_ok account none tid env hcond hb]
      refine ⟨?_, fun h => absurd h (by rw [hacct]; simp), ?_⟩
      · rw [hacct]
        simp only [if_true, List.countP_append, loginStarts]
        rw [show (login account none env).2.2.countP isLoginStart = 1 from
          login_trace_starts account none env hacct]
        rw [show ((play_track (login account none env).2.1 tid env).2).countP isLoginStart = 0 from
          play_trace_starts (login account none env).2.1 tid env]
      · exact ⟨(login account none env).2.2,
          (play_track (login account none env).2.1 tid env).2, rfl,
          login_trace_no_playback account none env,
          play_trace_no_login (login account none env).2.1 tid env⟩
  · have hfalse : pyTruthyAcct account = false := by
      rcases h : pyTruthyAcct account with _ | _
      · rfl
      · exact absurd h hacct
    have hcond : (pyTruthyAcct account && !pyTruthyStr (none : Option String)) = false := by
      rw [hfalse]; rfl
    rw [stream_no_login account none tid env hcond]
    refine ⟨?_, fun _ => rfl, ?_⟩
    · rw [hfalse]
      simp only [Bool.false_eq_true, if_false]
      exact play_trace_starts none tid env
    · exact ⟨[], (play_track none tid env).2, by simp, by simp,
        play_trace_no_login none tid env⟩

/-- Witness for C2: with demo credentials the run records exactly one login
invocation. -/
theorem C2_witness :
    loginStarts (stream acctDemo none ("T1") envHappy).2 =
      (if pyTruthyAcct acctDemo then 1 else 0) :=
  (C2_login_iff_credentials acctDemo ("T1") envHappy).1

/-- C3: whenever the metadata lookup completes with a status other than 200,
play_track returns success false, plays 0, error Track not found, and the
trace ends at the metadata call: no second pacing delay, no progress line
and no blocking playback sleep occur. -/
theorem C3_not_found_immediate (tok : Option String) (tid : String)
    (env : NetEnv) (hexc : env.trackGetExc = none)
    (hst : env.trackStatus ≠ 200) :
    play_track tok tid env =
      ({ success := false, plays := 0, error := some ("Track not found") },
       [Event.humanDelay 200 500, Event.metadataGet tid (bearerOf tok)]) := by
  unfold play_track
  simp only [hexc]
  rw [if_pos hst]

/-- Witness for C3 at a concrete run: metadata endpoint answers 404. -/
theorem C3_witness :
    play_track none ("T2") env404 =
      ({ success := false, plays := 0, error := some ("Track not found") },
       [Event.humanDelay 200 500, Event.metadataGet ("T2") (bearerOf none)]) :=
  C3_not_found_immediate none ("T2") env404 (by decide) (by decide)

end StealthScraper

namespace StealthScraper

/- Every play_track outcome is either a failure result with plays 0, or the
full success pair with the truncated sampled duration, the input track id,
the isoformat timestamp, and the progress line preceding the sleep. -/
theorem play_track_cases (tok : Option String) (tid : String) (env : NetEnv) :
    (∃ msg, (play_track tok tid env).1 =
        { success := false, plays := 0, error := some msg }) ∨
    (∃ nm, play_track tok tid env =
      ({ success := true, plays := 1, track_id := some tid,
         duration := some (pyInt env.durSample),
         timestamp := some (isoformat env.now) },
       [Event.humanDelay 200 500, Event.metadataGet tid (bearerOf tok),
        Event.humanDelay 300 700, Event.progress nm tid (pyInt env.durSample),
        Event.sleep env.durSample])) := by
  unfold play_track
  split
  · exact Or.inl ⟨_, rfl⟩
  · split_ifs
    · exact Or.inl ⟨_, rfl⟩
    · split
      · exact Or.inl ⟨_, rfl⟩
      · exact Or.inr ⟨_, rfl⟩

/- Every stream outcome is the Login-failed result or a play_track result. -/
theorem stream_result_cases (account : Option Account) (tok0 : Option String)
    (tid : String) (env : NetEnv) :
    ((stream account tok0 tid env).1 =
        { success := false, plays := 0, error := some ("Login failed") }) ∨
    ∃ tok, (stream account tok0 tid env).1 = (play_track tok tid env).1 := by
  by_cases hcond : (pyTruthyAcct account && !pyTruthyStr tok0) = true
  · rcases hb : (login account tok0 env).1 with _ | _
    · left
      rw [stream_login_failed account tok0 tid env hcond hb]
    · right
      exact ⟨(login account tok0 env).2.1,
        by rw [stream_login_ok account tok0 tid env hcond hb]⟩
  · have hf : (pyTruthyAcct account && !pyTruthyStr tok0) = false := by
      rcases hx : (pyTruthyAcct account && !pyTruthyStr tok0) with _ | _
      · rfl
      · exact absurd hx hcond
    exact Or.inr ⟨tok0, by rw [stream_no_login account tok0 tid env hf]⟩

/-- C4: every result the workflow produces satisfies the invariant: under
the contracts of random.uniform (the sample lies in the closed interval
from 45 to 120) and of utcnow (a valid calendar instant), a success result
has plays 1, no error field, an integer duration between 45 and 120
inclusive, and a timestamp that is the ISO-8601 serialization of a valid
UTC instant; a failure result has plays 0. -/
theorem C4_result_invariant (account : Option Account) (tid : String)
    (env : NetEnv) (h45 : (45:ℚ) ≤ env.durSample)
    (h120 : env.durSample ≤ (120:ℚ)) (hval : env.now.valid) :
    ((stream account none tid env).1.success = true →
      (stream account none tid env).1.plays = 1 ∧
      (stream account none tid env).1.error = none ∧
      (∃ d : ℤ, (stream account none tid env).1.duration = some d ∧
        45 ≤ d ∧ d ≤ 120) ∧
      (∃ t : UTCTime, t.valid ∧
        (stream account none tid env).1.timestamp = some (isoformat t))) ∧
    ((stream account none tid env).1.success = false →
      (stream account none tid env).1.plays = 0) := by
  rcases stream_result_cases account none tid env with h | ⟨tok, h⟩
  · rw [h]
    exact ⟨fun hs => absurd hs (by simp), fun _ => rfl⟩
  · rw [h]
    rcases play_track_cases tok tid env with ⟨msg, hp⟩ | ⟨nm, hp⟩
    · rw [hp]
      exact ⟨fun hs => absurd hs (by simp), fun _ => rfl⟩
    · rw [show (play_track tok tid env).1 =
          { success := true, plays := 1, track_id := some tid,
            duration := some (pyInt env.durSample),
            timestamp := some (isoformat env.now) } from by rw [hp]]
      refine ⟨fun _ => ⟨rfl, rfl, ⟨pyInt env.durSample, rfl,
        (pyInt_bounds env.durSample h45 h120).1,
        (pyInt_bounds env.durSample h45 h120).2⟩,
        ⟨env.now, hval, rfl⟩⟩, fun hs => absurd hs (by simp)⟩

/-- Witness for C4 at a concrete successful run with duration sample 67.5
truncated to 67. -/
theorem C4_witness :
    (((stream (none : Option Account) none ("T1") envHappy).1.success = true →
      (stream (none : Option Account) none ("T1") envHappy).1.plays = 1 ∧
      (stream (none : Option Account) none ("T1") envHappy).1.error = none ∧
      (∃ d : ℤ, (stream (none : Option Account) none ("T1") envHappy).1.duration = some d ∧
        45 ≤ d ∧ d ≤ 120) ∧
      (∃ t : UTCTime, t.valid ∧
        (stream (none : Option Account) none ("T1") envHappy).1.timestamp =
          some (isoformat t))) ∧
    ((stream (none : Option Account) none ("T1") envHappy).1.success = false →
      (stream (none : Option Account) none ("T1") envHappy).1.plays = 0)) :=
  C4_result_invariant none ("T1") envHappy (by decide) (by decide) (by decide)

/-- C9: with a truthy account, login succeeds exactly when neither network
call raises and the login submission answers 200; on success the session
token is set from the sp_dc cookie with empty-string default, and in
particular an absent cookie still yields a successful login carrying the
empty-string token. -/
theorem C9_login_success_iff (account : Option Account) (tok0 : Option String)
    (env : NetEnv) (hacct : pyTruthyAcct account = true) :
    ((login account tok0 env).1 = true ↔
      env.csrfGetExc = false ∧ env.loginPostExc = false ∧ env.loginStatus = 200) ∧
    ((login account tok0 env).1 = true →
      (login account tok0 env).2.1 = some (env.sp_dc.getD "")) ∧
    (env.csrfGetExc = false → env.loginPostExc = false → env.loginStatus = 200 →
      env.sp_dc = none →
      (login account tok0 env).1 = true ∧ (login account tok0 env).2.1 = some ("")) := by
  unfold login
  rw [hacct]
  simp only [Bool.not_true, Bool.false_eq_true, if_false]
  split_ifs with h1 h2 h3 <;> simp_all

/-- Witness for C9 at a concrete login with credentials present. -/
theorem C9_witness :
    (((login acctDemo none envHappy).1 = true ↔
      envHappy.csrfGetExc = false ∧ envHappy.loginPostExc = false ∧
        envHappy.loginStatus = 200) ∧
    ((login acctDemo none envHappy).1 = true →
      (login acctDemo none envHappy).2.1 = some (envHappy.sp_dc.getD "")) ∧
    (envHappy.csrfGetExc = false → envHappy.loginPostExc = false →
      envHappy.loginStatus = 200 → envHappy.sp_dc = none →
      (login acctDemo none envHappy).1 = true ∧
        (login acctDemo none envHappy).2.1 = some (""))) :=
  C9_login_success_iff acctDemo none envHappy (by decide)

/-- C10: on every successful playback the final result carries the input
track id, and the progress notification of the trace is unique and carries
the same track id and the same truncated duration as the final result. -/
theorem C10_progress_consistency (tok : Option String) (tid : String)
    (env : NetEnv) (hs : (play_track tok tid env).1.success = true) :
    (play_track tok tid env).1.track_id = some tid ∧
    ∃ nm d, (play_track tok tid env).1.duration = some d ∧
      Event.progress nm tid d ∈ (play_track tok tid env).2 ∧
      ∀ nm2 tid2 d2, Event.progress nm2 tid2 d2 ∈ (play_track tok tid env).2 →
        nm2 = nm ∧ tid2 = tid ∧ d2 = d := by
  rcases play_track_cases tok tid env with ⟨msg, hp⟩ | ⟨nm, hp⟩
  · rw [hp] at hs
    exact absurd hs (by simp)
  · rw [hp]
    refine ⟨rfl, nm, pyInt env.durSample, rfl, by simp, ?_⟩
    intro nm2 tid2 d2 hmem
    simp only [List.mem_cons, List.not_mem_nil, or_false] at hmem
    rcases hmem with h | h | h | h | h <;> cases h
    exact ⟨rfl, rfl, rfl⟩

/-- Witness for C10 at a concrete successful playback. -/
theorem C10_witness :
    ((play_track none ("T1") envHappy).1.track_id = some ("T1") ∧
    ∃ nm d, (play_track none ("T1") envHappy).1.duration = some d ∧
      Event.progress nm ("T1") d ∈ (play_track none ("T1") envHappy).2 ∧
      ∀ nm2 tid2 d2,
        Event.progress nm2 tid2 d2 ∈ (play_track none ("T1") envHappy).2 →
          nm2 = nm ∧ tid2 = ("T1") ∧ d2 = d) :=
  C10_progress_consistency none ("T1") envHappy (by decide)

end StealthScraper

namespace StealthScraper

/- Reduction of parseOptArg when the argument at position i exists. -/
theorem parseOptArg_get {α : Type} (jp : String → Option α)
    (argv : List String) (i : Nat) (s : String) (h : argv.get? i = some s) :
    parseOptArg jp argv i = if s = "null" then none else jp s := by
  unfold parseOptArg
  rw [h]

/- Reduction of setup_stealth on a present proxy dictionary. -/
theorem setup_stealth_some (p : Proxy) :
    setup_stealth (some p) =
      (if proxyTruthy p then
        match format_proxy_url p with
        | Except.ok url => Except.ok { headers := stealthHeaders, proxies := some url }
        | Except.error m => Except.error m
      else Except.ok { headers := stealthHeaders, proxies := none }) := rfl

/- parseOptArg yields a value exactly when the argument exists, differs from
the literal null, and decodes. -/
theorem parseOptArg_some_iff {α : Type} (jp : String → Option α)
    (argv : List String) (i : Nat) (x : α) :
    parseOptArg jp argv i = some x ↔
      ∃ s, argv.get? i = some s ∧ s ≠ "null" ∧ jp s = some x := by
  cases h : argv.get? i with
  | none =>
      unfold parseOptArg
      rw [h]
      simp
  | some s =>
      rw [parseOptArg_get jp argv i s h]
      split_ifs with hn
      · subst hn; simp
      · constructor
        · intro hx; exact ⟨s, rfl, hn, hx⟩
        · rintro ⟨s2, hs2, hn2, hx2⟩
          injection hs2 with hs2
          subst hs2
          exact hx2

/- The proxy URL formatter raises KeyError exactly when host or port is
missing. -/
theorem format_proxy_url_error_iff (p : Proxy) :
    (∃ m, format_proxy_url p = Except.error m) ↔
      (p.host = none ∨ p.port = none) := by
  unfold format_proxy_url
  rcases hh : p.host with _ | hv <;> rcases hp : p.port with _ | pv <;>
    split_ifs <;> simp [hh, hp]

/- Channel construction raises exactly when a truthy proxy dictionary lacks
host or port. -/
theorem setup_stealth_error_iff (proxy : Option Proxy) :
    (∃ m, setup_stealth proxy = Except.error m) ↔
      ∃ p, proxy = some p ∧ proxyTruthy p = true ∧
        (p.host = none ∨ p.port = none) := by
  cases proxy with
  | none => simp [setup_stealth]
  | some p =>
      rw [setup_stealth_some p]
      split_ifs with ht
      · constructor
        · rintro ⟨m, hm⟩
          cases hf : format_proxy_url p with
          | ok url => rw [hf] at hm; cases hm
          | error m2 =>
              exact ⟨p, rfl, ht, (format_proxy_url_error_iff p).mp ⟨m2, hf⟩⟩
        · rintro ⟨p2, hp2, htr, hcase⟩
          injection hp2 with hp2
          subst hp2
          rcases (format_proxy_url_error_iff p).mpr hcase with ⟨m, hm⟩
          rw [hm]
          exact ⟨m, rfl⟩
      · constructor
        · rintro ⟨m, hm⟩
          cases hm
        · rintro ⟨p2, hp2, htr, hcase⟩
          injection hp2 with hp2
          subst hp2
          exact absurd htr ht

/- main on an argument vector with at least the item id present. -/
theorem main_cons_cons (jp : String → Option Proxy) (ja : String → Option Account)
    (a tid : String) (rest : List String) (env : NetEnv) :
    main jp ja (a :: tid :: rest) env =
      match setup_stealth (parseOptArg jp (a :: tid :: rest) 2) with
      | Except.error msg => MainResult.crashed msg
      | Except.ok _ =>
          MainResult.completed
            (stream (parseOptArg ja (a :: tid :: rest) 3) none tid env).1
            (stream (parseOptArg ja (a :: tid :: rest) 3) none tid env).2 := rfl

/-- C5 counterexample: the claim asserts that malformed ProxyRoute fields
surface only as a runtime failure on first use and that no input produces
an unhandled fault, yet with a proxy argument decoding to a dictionary
holding only a host (as json.loads does on the JSON object with a single
host key), the run dies with an unhandled KeyError raised while the
channel is constructed, before any network event. -/
theorem C5_counterexample :
    main jpHostOnly jaNone
      [("SpotifyStealthScraper.py"), ("T1"),
       ("\x7b\x22host\x22:\x22p.com\x22\x7d"), ("null")] envHappy =
      MainResult.crashed ("KeyError: port") := by decide

/-- C5 amended: a run dies with an unhandled exception exactly when the
proxy argument is present, is not the literal null, decodes to a truthy
dictionary, and that dictionary lacks host or port; the failure happens at
channel construction (the crashed outcome carries no workflow result and
no trace), and for every other input the errors of login and playback are
caught and folded into a structured result. -/
theorem C5_crash_characterization (jp : String → Option Proxy)
    (ja : String → Option Account) (argv : List String) (env : NetEnv) :
    isCrashed (main jp ja argv env) = true ↔
      ∃ s p, argv.get? 2 = some s ∧ s ≠ "null" ∧ jp s = some p ∧
        proxyTruthy p = true ∧ (p.host = none ∨ p.port = none) := by
  cases argv with
  | nil => simp [main, isCrashed]
  | cons a rest =>
      cases rest with
      | nil => simp [main, isCrashed]
      | cons tid rest2 =>
          rw [main_cons_cons]
          constructor
          · intro hcr
            cases hsu : setup_stealth (parseOptArg jp (a :: tid :: rest2) 2) with
            | error m =>
                rcases (setup_stealth_error_iff _).mp ⟨m, hsu⟩ with ⟨p, hp, htr, hcase⟩
                rcases (parseOptArg_some_iff jp (a :: tid :: rest2) 2 p).mp hp with
                  ⟨s, hsget, hn, hjp⟩
                exact ⟨s, p, hsget, hn, hjp, htr, hcase⟩
            | ok ch =>
                rw [hsu] at hcr
                cases hcr
          · rintro ⟨s, p, hsget, hn, hjp, htr, hcase⟩
            have hpo : parseOptArg jp (a :: tid :: rest2) 2 = some p :=
              (parseOptArg_some_iff jp (a :: tid :: rest2) 2 p).mpr ⟨s, hsget, hn, hjp⟩
            rcases (setup_stealth_error_iff (some p)).mpr ⟨p, rfl, htr, hcase⟩ with ⟨m, hm⟩
            rw [hpo, hm]
            rfl

/-- C6: for every run that does not die with an unhandled exception, the
process exit status is 0 when the final success flag is true and 1
otherwise, the missing-argument usage error included. -/
theorem C6_exit_code (jp : String → Option Proxy) (ja : String → Option Account)
    (argv : List String) (env : NetEnv)
    (h : isCrashed (main jp ja argv env) = false) :
    exitCode (main jp ja argv env) =
      if finalSuccess (main jp ja argv env) then 0 else 1 := by
  cases hm : main jp ja argv env with
  | usageError => rfl
  | completed r tr => rfl
  | crashed m => rw [hm] at h; cases h

/-- Witness for C6 at the early-argument error: only the program name is
present, the run exits 1 and the final success flag is falsy. -/
theorem C6_witness :
    exitCode (main jpNone jaNone [("SpotifyStealthScraper.py")] envHappy) =
      if finalSuccess (main jpNone jaNone [("SpotifyStealthScraper.py")] envHappy)
      then 0 else 1 :=
  C6_exit_code jpNone jaNone [("SpotifyStealthScraper.py")] envHappy (by decide)

/-- C7: an optional argument that fails to decode is treated exactly as if
it were absent, for the proxy and for the credentials alike, and the
literal string null likewise disables either argument, so a malformed
JSON argument never aborts the run. -/
theorem C7_malformed_json_ignored (jp : String → Option Proxy)
    (ja : String → Option Account) (p0 tid s s2 c : String) (env : NetEnv)
    (hbadp : jp s = none) (hbada : ja s2 = none) :
    main jp ja [p0, tid, s, c] env = main jp ja [p0, tid, "null", c] env ∧
    main jp ja [p0, tid, c, s2] env = main jp ja [p0, tid, c, "null"] env ∧
    main jp ja [p0, tid, "null", "null"] env = main jp ja [p0, tid] env := by
  refine ⟨?_, ?_, rfl⟩
  · rw [main_cons_cons jp ja p0 tid ([s, c]) env,
      main_cons_cons jp ja p0 tid (["null", c]) env]
    have h1 : parseOptArg jp [p0, tid, s, c] 2 = none := by
      rw [parseOptArg_get jp ([p0, tid, s, c]) 2 s rfl]
      split_ifs with hn
      · rfl
      · exact hbadp
    have h2 : parseOptArg jp [p0, tid, "null", c] 2 = none := rfl
    have h3 : parseOptArg ja [p0, tid, s, c] 3 = parseOptArg ja [p0, tid, "null", c] 3 := rfl
    rw [h1, h2, h3]
  · rw [main_cons_cons jp ja p0 tid ([c, s2]) env,
      main_cons_cons jp ja p0 tid ([c, "null"]) env]
    have h1 : parseOptArg ja [p0, tid, c, s2] 3 = none := by
      rw [parseOptArg_get ja ([p0, tid, c, s2]) 3 s2 rfl]
      split_ifs with hn
      · rfl
      · exact hbada
    have h2 : parseOptArg ja [p0, tid, c, "null"] 3 = none := rfl
    have h3 : parseOptArg jp [p0, tid, c, s2] 2 = parseOptArg jp [p0, tid, c, "null"] 2 := rfl
    rw [h1, h2, h3]

/-- Witness for C7 with the malformed argument open-brace bad from the
specification example. -/
theorem C7_witness :
    (main jpNone jaNone [("SpotifyStealthScraper.py"), ("T1"), ("\x7bbad"), ("null")] envHappy =
      main jpNone jaNone [("SpotifyStealthScraper.py"), ("T1"), ("null"), ("null")] envHappy ∧
    main jpNone jaNone [("SpotifyStealthScraper.py"), ("T1"), ("null"), ("\x7bbad")] envHappy =
      main jpNone jaNone [("SpotifyStealthScraper.py"), ("T1"), ("null"), ("null")] envHappy ∧
    main jpNone jaNone [("SpotifyStealthScraper.py"), ("T1"), ("null"), ("null")] envHappy =
      main jpNone jaNone [("SpotifyStealthScraper.py"), ("T1")] envHappy) :=
  C7_malformed_json_ignored jpNone jaNone ("SpotifyStealthScraper.py") ("T1")
    ("\x7bbad") ("\x7bbad") ("null") envHappy rfl rfl

/-- C8 counterexample: the claim asserts the user-password form whenever
both username and password are present, but with a present empty-string
username the code emits the plain host-port form instead. -/
theorem C8_counterexample :
    format_proxy_url proxEmptyUser = Except.ok ("http://p.com:8080") ∧
    format_proxy_url proxEmptyUser ≠ Except.ok ("http://:pw@p.com:8080") := by
  exact ⟨by decide, by decide⟩

/-- C8 amended: the two concrete mappings of the specification hold, and in
general the formatter uses the user-password form exactly when username
and password are both present and non-empty (Python-truthy); otherwise,
host and port being present, it uses the plain host-port form. -/
theorem C8_format_characterization (hostv : String) (pt : Nat)
    (u pw : Option String) :
    format_proxy_url proxHP = Except.ok ("http://p.com:8080") ∧
    format_proxy_url proxHPUser = Except.ok ("http://u:pw@p.com:8080") ∧
    format_proxy_url { host := some hostv, port := some pt, username := u, password := pw } =
      Except.ok (if pyTruthyStr u && pyTruthyStr pw
        then "http://" ++ u.getD "" ++ ":" ++ pw.getD "" ++ "@" ++ hostv ++ ":" ++ toString pt
        else "http://" ++ hostv ++ ":" ++ toString pt) := by
  refine ⟨by decide, by decide, ?_⟩
  unfold format_proxy_url
  split_ifs with h
  · rfl
  · rfl

end StealthScraper
